import Mathlib

/-!
Verification of the trane-guitar fretboard-exploration course generator.

The repository code (`src/fretboard/fretboard_exploration.rs`,
`src/fretboard/major_scale.rs`, `src/fretboard/minor_scale.rs`) is embedded
shallowly below.  The music-theory primitives (`Note`, `ScaleType`) and the
circle-of-fifths course driver (`CircleFifthsCourse`) live in the external
`trane` library, whose code is not part of this repository; those pieces are
modelled from the specification and are marked as such in their doc comments.
The Rust `manifest_closure` fields (which late-bind the manifest's id, name,
description, dependencies and metadata) are embedded as plain record fields
holding the values the closures set.
-/

/-- Modelled from the spec: the trane library's `Note` type — one of 12 pitch
classes with a canonical ordering (spec §3, §4.1). -/
inductive Note where
  | C | CSharp | D | DSharp | E | F | FSharp | G | GSharp | A | ASharp | B
deriving DecidableEq, Repr

/-- Modelled from the spec: the note's fixed position in `[0, 12)` (spec §4.1). -/
def Note.position : Note → Nat
  | .C => 0
  | .CSharp => 1
  | .D => 2
  | .DSharp => 3
  | .E => 4
  | .F => 5
  | .FSharp => 6
  | .G => 7
  | .GSharp => 8
  | .A => 9
  | .ASharp => 10
  | .B => 11

/-- Modelled from the spec: inverse of `Note.position`, taking positions
modulo 12. -/
def Note.ofPosition (p : Nat) : Note :=
  match p % 12 with
  | 0 => .C
  | 1 => .CSharp
  | 2 => .D
  | 3 => .DSharp
  | 4 => .E
  | 5 => .F
  | 6 => .FSharp
  | 7 => .G
  | 8 => .GSharp
  | 9 => .A
  | 10 => .ASharp
  | _ => .B

/-- Modelled from the spec: `Note.transpose(semitones)` adds `semitones` to the
note's fixed position in `[0,12)` and wraps with modulo-12 arithmetic; a total
function (spec §4.1). -/
def Note.transpose (n : Note) (semitones : Int) : Note :=
  Note.ofPosition (((n.position : Int) + semitones) % 12).toNat

/-- Modelled from the spec: the canonical display string of a note
(spec §4.1 "Rendering"); the spec's example sequence in §8 uses sharps. -/
def Note.toString : Note → String
  | .C => "C"
  | .CSharp => "C♯"
  | .D => "D"
  | .DSharp => "D♯"
  | .E => "E"
  | .F => "F"
  | .FSharp => "F♯"
  | .G => "G"
  | .GSharp => "G♯"
  | .A => "A"
  | .ASharp => "A♯"
  | .B => "B"

/-- Modelled from the spec: the ASCII-safe variant of the display string, used
for identifiers and directory names (spec §4.1 "Rendering"). -/
def Note.to_ascii_string : Note → String
  | .C => "C"
  | .CSharp => "C_sharp"
  | .D => "D"
  | .DSharp => "D_sharp"
  | .E => "E"
  | .F => "F"
  | .FSharp => "F_sharp"
  | .G => "G"
  | .GSharp => "G_sharp"
  | .A => "A"
  | .ASharp => "A_sharp"
  | .B => "B"

/-- Modelled from the spec: the trane library's `relative_minor`, mapping a
major key to the minor key conventionally 3 semitones below it (spec glossary
"Relative minor"); total, hence always `Except.ok`, matching the `Result`
signature used at `minor_scale.rs` line 19. -/
def Note.relative_minor (n : Note) : Except String Note :=
  .ok (n.transpose (-3))

/-- Modelled from the spec: the trane library's `ScaleType` selector; the
repository uses `Major` and `Minor` (spec §3). -/
inductive ScaleType where
  | Major | Minor
deriving DecidableEq, Repr

/-- Modelled from the spec: the fixed ordered interval formula of each scale
type (spec §3: Major = [2,2,1,2,2,2,1]; natural Minor = [2,1,2,2,1,2,2]). -/
def ScaleType.formula : ScaleType → List Nat
  | .Major => [2, 2, 1, 2, 2, 2, 1]
  | .Minor => [2, 1, 2, 2, 1, 2, 2]

/-- Modelled from the spec: the canonical display string of a scale type. -/
def ScaleType.toString : ScaleType → String
  | .Major => "Major"
  | .Minor => "Minor"

/-- Modelled from the spec: `ScaleResult`, containing the root and the ordered
sequence of constituent notes (spec §3). -/
structure ScaleResult where
  root : Note
  notes : List Note
deriving DecidableEq, Repr

/-- Modelled from the spec: walk the interval formula, accumulating semitone
offsets from the root and collecting the note at each position; one note per
formula entry, starting at the root itself (spec §4.1). -/
def scaleWalk (root : Note) : List Nat → Nat → List Note
  | [], _ => []
  | i :: rest, offset => root.transpose (offset : Int) :: scaleWalk root rest (offset + i)

/-- Modelled from the spec: `ScaleType.notes(root)` walks the scale's fixed
interval formula from `root`; deterministic and total, so it always returns
`Except.ok` even though the Rust signature is `Result` (spec §4.1). -/
def ScaleType.notes (s : ScaleType) (root : Note) : Except String ScaleResult :=
  .ok { root := root, notes := scaleWalk root s.formula 0 }

/-- `mapM` over `Except`, written as plain structural recursion: fail on the
first error, otherwise collect the results in order.  This is the semantics of
a Rust `for` loop whose body uses the `?` operator. -/
def mapME {α β : Type} (f : α → Except String β) : List α → Except String (List β)
  | [] => .ok []
  | a :: rest =>
    match f a with
    | .error e => .error e
    | .ok b =>
      match mapME f rest with
      | .error e => .error e
      | .ok bs => .ok (b :: bs)

/-- `AssetBuilder` from the trane library: a file name and its contents. -/
structure AssetBuilder where
  file_name : String
  contents : String
deriving DecidableEq, Repr

/-- `ExerciseBuilder`: directory name, asset builders, and the manifest fields
set by the Rust `manifest_closure` (id and name). -/
structure ExerciseBuilder where
  directory_name : String
  asset_builders : List AssetBuilder
  manifest_id : String
  manifest_name : String
deriving DecidableEq, Repr

/-- `FretboardExplorationCourse::standard_tuning` (fretboard_exploration.rs
lines 44–46): the E string is only returned once. -/
def standard_tuning : List Note :=
  [Note.E, Note.A, Note.D, Note.G, Note.B]

/-- The body of the `for guitar_string in tuning` loop of
`generate_exercise_builders` (fretboard_exploration.rs lines 67–102): one
`ExerciseBuilder` per tuning entry, with front/back assets and the manifest id
and name set by the manifest closure. -/
def exercise_builder_for (course_id : String) (scale : ScaleType) (note : Note)
    (scale_answer : String) (guitar_string : Note) : ExerciseBuilder :=
  { directory_name := guitar_string.toString ++ "_string",
    asset_builders :=
      [{ file_name := "front.md",
         contents := "Explore the " ++ note.toString ++ " " ++ scale.toString ++
           " scale in the " ++ guitar_string.toString ++ " string. \n" },
       { file_name := "back.md",
         contents := "The notes of the " ++ note.toString ++ " " ++ scale.toString ++
           " scale are: " ++ scale_answer ++ ".\n" }],
    manifest_id := course_id ++ "::" ++ note.toString ++ "::" ++
      guitar_string.toString ++ "_string",
    manifest_name := "Explore the " ++ note.toString ++ " " ++ scale.toString ++
      " scale in the " ++ guitar_string.toString ++ " string" }

/-- `FretboardExplorationCourse::generate_exercise_builders`
(fretboard_exploration.rs lines 49–105): compute the scale notes once, render
the comma-joined answer once, default a missing tuning to `standard_tuning`,
then emit one builder per tuning entry in order. -/
def generate_exercise_builders (course_id : String) (scale : ScaleType)
    (note : Note) (tuning : Option (List Note)) :
    Except String (List ExerciseBuilder) :=
  match scale.notes note with
  | .error e => .error e
  | .ok scale_result =>
    let scale_notes := scale_result.notes
    let scale_answer := String.intercalate ", " (scale_notes.map Note.toString)
    let tuning := match tuning with
      | none => standard_tuning
      | some t => t
    .ok (tuning.map (exercise_builder_for course_id scale note scale_answer))

/-- `LessonBuilder`: directory name, exercise builders, and the manifest fields
set by the Rust `manifest_closure` (id, name, description, dependencies,
metadata). -/
structure LessonBuilder where
  directory_name : String
  exercise_builders : List ExerciseBuilder
  manifest_id : String
  manifest_name : String
  manifest_description : String
  dependencies : List String
  metadata : List (String × List String)
deriving DecidableEq, Repr

/-- The `lesson_builder_generator` closure passed to `CircleFifthsCourse`
(fretboard_exploration.rs lines 166–221): builds the lesson id
`"{course_id}::{note}"`, delegates exercise generation, and the manifest
closure sets the name, description, dependencies (empty when `previous_note`
is `None`, otherwise the singleton `"{course_id}::{previous_note}"`) and the
`Key` metadata. -/
def lesson_builder_generator (course_id : String) (scale : ScaleType)
    (tuning : Option (List Note)) (note : Note) (previous_note : Option Note) :
    Except String LessonBuilder :=
  match generate_exercise_builders course_id scale note tuning with
  | .error e => .error e
  | .ok exercise_builders =>
  let deps := match previous_note with
    | none => []
    | some p => [course_id ++ "::" ++ p.toString]
  .ok {
    directory_name := "lesson_" ++ note.to_ascii_string,
    exercise_builders := exercise_builders,
    manifest_id := course_id ++ "::" ++ note.toString,
    manifest_name := "Explore the " ++ note.toString ++ " " ++ scale.toString ++
      " Scale in the fretboard",
    manifest_description := "Explore the notes of the " ++ note.toString ++ " " ++
      scale.toString ++ " scale in the fretboard.",
    dependencies := deps,
    metadata := [("key", [note.to_ascii_string])] }

/-- `CourseBuilder`: the course manifest fields, course-level asset builders,
and the ordered lesson builders. -/
structure CourseBuilder where
  directory_name : String
  course_id : String
  course_name : String
  course_dependencies : List String
  course_description : String
  course_metadata : List (String × List String)
  course_asset_builders : List AssetBuilder
  lessons : List LessonBuilder
deriving DecidableEq, Repr

/-- Modelled from the spec: the circle-of-fifths base order of the trane
library's `CircleFifthsCourse` — the 12 pitch classes enumerated by repeated
transposition by +7 semitones from a fixed reference note; the spec's §8
example pins the walk at C: C, G, D, A, E, B, F♯, C♯, G♯, D♯, A♯, F. -/
def circle_of_fifths : List Note :=
  (List.range 12).map (fun i => Note.C.transpose (7 * (i : Int)))

/-- Modelled from the spec: pair each sequence element with its predecessor —
for position `i`, the pair `(note[i], note[i-1] or None)`; `previous_note`
is `None` only at `i = 0` (spec §4.2). -/
def pairs_with_previous (prev : Option Note) : List Note → List (Note × Option Note)
  | [] => []
  | n :: rest => (n, prev) :: pairs_with_previous (some n) rest

/-- Modelled from the spec: apply the optional alias function to a sequence
element; when absent, the identity mapping is used (spec §4.2). -/
def apply_alias (note_alias : Option (Note → Except String Note)) (n : Note) :
    Except String Note :=
  match note_alias with
  | none => .ok n
  | some f => f n

/-- Modelled from the spec: the key sequencer of `CircleFifthsCourse` — apply
the optional alias function to every element of the circle-of-fifths walk,
propagating any alias failure, then form the (note, previous_note) pairs
(spec §4.2). -/
def key_sequence (note_alias : Option (Note → Except String Note)) :
    Except String (List (Note × Option Note)) :=
  match mapME (apply_alias note_alias) circle_of_fifths with
  | .error e => .error e
  | .ok aliased => .ok (pairs_with_previous none aliased)

/-- The course-level instructional asset text (fretboard_exploration.rs
lines 148–161). -/
def course_instructions_text : String :=
  "Inspired by an exercise from the book *The Advancing guitarist*.\n\n" ++
  "Explore the scale in each individual string without jumping across\n" ++
  "multiple strings. Explore different fingerings, techniques, dynamics,\n" ++
  "etc.\n\n" ++
  "You can use a vamp or backing track, although they are not provided\nhere.\n"

/-- `FretboardExplorationCourse` (fretboard_exploration.rs lines 19–39). -/
structure FretboardExplorationCourse where
  course_id : String
  dependencies : List String
  directory_name : String
  scale : ScaleType
  note_alias : Option (Note → Except String Note)
  tuning : Option (List Note)

/-- `FretboardExplorationCourse::course_builder` (fretboard_exploration.rs
lines 108–225) combined with the trane library's
`CircleFifthsCourse::generate_course_builder`, which is modelled from the
spec (§4.5): run the key sequencer, build one lesson per (note, previous)
pair via `lesson_builder_generator`, aborting the whole build on any failure,
and assemble the course manifest, metadata and instructional asset. -/
def FretboardExplorationCourse.course_builder (c : FretboardExplorationCourse) :
    Except String CourseBuilder :=
  match key_sequence c.note_alias with
  | .error e => .error e
  | .ok pairs =>
  match mapME
    (fun p => lesson_builder_generator c.course_id c.scale c.tuning p.1 p.2) pairs with
  | .error e => .error e
  | .ok lessons =>
  .ok {
    directory_name := c.directory_name,
    course_id := c.course_id,
    course_name := "Explore the " ++ c.scale.toString ++ " Scale in the fretboard",
    course_dependencies := c.dependencies,
    course_description := "Explore the " ++ c.scale.toString ++
      " scale in all strings in the fretboard for all keys.",
    course_metadata :=
      [("skill", ["music"]),
       ("instrument", ["guitar"]),
       ("musical_skill", ["fretboard"]),
       ("musical_concept", ["scales"]),
       ("scale_type", [c.scale.toString.toLower])],
    course_asset_builders :=
      [{ file_name := "course_instructions.md", contents := course_instructions_text }],
    lessons := lessons }

/-- The `FretboardExplorationCourse` value built by `major_scale::course_builder`
(major_scale.rs lines 14–21). -/
def major_scale_course : FretboardExplorationCourse :=
  { course_id := "trane::guitar::fretboard_exploration::major_scale",
    dependencies := [],
    directory_name := "fretboard_major_scale",
    scale := .Major,
    note_alias := none,
    tuning := none }

/-- `major_scale::course_builder` (major_scale.rs lines 13–23). -/
def major_scale_course_builder : Except String CourseBuilder :=
  major_scale_course.course_builder

/-- The `FretboardExplorationCourse` value built by `minor_scale::course_builder`
(minor_scale.rs lines 14–21). -/
def minor_scale_course : FretboardExplorationCourse :=
  { course_id := "trane::guitar::fretboard_exploration::minor_scale",
    dependencies := [],
    directory_name := "fretboard_minor_scale",
    scale := .Minor,
    note_alias := some Note.relative_minor,
    tuning := none }

/-- `minor_scale::course_builder` (minor_scale.rs lines 13–23). -/
def minor_scale_course_builder : Except String CourseBuilder :=
  minor_scale_course.course_builder

/-! ### Pure forms and helpers used to state and prove the properties -/

/-- The tuning actually used by `generate_exercise_builders`: the caller's
tuning when supplied, otherwise `standard_tuning`. -/
def tuning_or_default (t : Option (List Note)) : List Note :=
  match t with
  | none => standard_tuning
  | some t => t

/-- The comma-joined display rendering of the scale's notes, as computed once
by `generate_exercise_builders`. -/
def scale_answer_of (s : ScaleType) (n : Note) : String :=
  String.intercalate ", " ((scaleWalk n s.formula 0).map Note.toString)

/-- The value `generate_exercise_builders` always succeeds with. -/
def exercise_builders_pure (c : String) (s : ScaleType) (n : Note)
    (t : Option (List Note)) : List ExerciseBuilder :=
  (tuning_or_default t).map (exercise_builder_for c s n (scale_answer_of s n))

/-- The value `lesson_builder_generator` always succeeds with. -/
def lesson_builder_pure (c : String) (s : ScaleType) (t : Option (List Note))
    (n : Note) (p : Option Note) : LessonBuilder :=
  { directory_name := "lesson_" ++ n.to_ascii_string,
    exercise_builders := exercise_builders_pure c s n t,
    manifest_id := c ++ "::" ++ n.toString,
    manifest_name := "Explore the " ++ n.toString ++ " " ++ s.toString ++
      " Scale in the fretboard",
    manifest_description := "Explore the notes of the " ++ n.toString ++ " " ++
      s.toString ++ " scale in the fretboard.",
    dependencies := match p with
      | none => []
      | some q => [c ++ "::" ++ q.toString],
    metadata := [("key", [n.to_ascii_string])] }

/-- Extract the builders from a successful result (safe default otherwise);
used only to state closed instances of the theorems. -/
def builders_of (e : Except String (List ExerciseBuilder)) : List ExerciseBuilder :=
  match e with
  | .ok bs => bs
  | .error _ => []

/-- Extract the lesson from a successful result (safe default otherwise);
used only to state closed instances of the theorems. -/
def lesson_of (e : Except String LessonBuilder) : LessonBuilder :=
  match e with
  | .ok l => l
  | .error _ => ⟨"", [], "", "", "", [], []⟩

/-- Extract the lessons of a successfully built course (safe default
otherwise); used only to state closed instances of the theorems. -/
def lessons_of (e : Except String CourseBuilder) : List LessonBuilder :=
  match e with
  | .ok cb => cb.lessons
  | .error _ => []

/-- Extract a successfully built course (safe default otherwise); used only to
state closed instances of the theorems. -/
def course_of (e : Except String CourseBuilder) : CourseBuilder :=
  match e with
  | .ok cb => cb
  | .error _ => ⟨"", "", "", [], "", [], [], []⟩

/-- A course whose alias function rejects every note; used only to state a
closed instance of the alias-failure theorem. -/
def failing_alias_course : FretboardExplorationCourse :=
  { course_id := "c",
    dependencies := [],
    directory_name := "d",
    scale := .Major,
    note_alias := some (fun _ => .error "alias failure"),
    tuning := none }

/-- The linear-chain shape of a course's lesson list: the first lesson has no
dependencies, each later lesson depends on exactly the manifest id of its
predecessor, and all manifest ids are distinct (so following dependency
pointers from the last lesson visits every lesson exactly once, with no cycle
and no branching). -/
def linear_dependency_chain (ls : List LessonBuilder) : Prop :=
  (∀ l0, ls.head? = some l0 → l0.dependencies = []) ∧
  List.Chain' (fun a b => b.dependencies = [a.manifest_id]) ls ∧
  (ls.map LessonBuilder.manifest_id).Nodup

/-! ### Helper lemmas -/

theorem generate_exercise_builders_eq (c : String) (s : ScaleType) (n : Note)
    (t : Option (List Note)) :
    generate_exercise_builders c s n t = .ok (exercise_builders_pure c s n t) := by
  cases t <;> rfl

theorem lesson_builder_generator_eq (c : String) (s : ScaleType)
    (t : Option (List Note)) (n : Note) (p : Option Note) :
    lesson_builder_generator c s t n p = .ok (lesson_builder_pure c s t n p) := by
  cases t <;> cases p <;> rfl

theorem mapME_ok_of_forall_ok {α β : Type} (f : α → Except String β) (g : α → β) :
    ∀ l : List α, (∀ a ∈ l, f a = .ok (g a)) → mapME f l = .ok (l.map g) := by
  intro l
  induction l with
  | nil => intro _; rfl
  | cons a rest ih =>
    intro h
    have ha : f a = .ok (g a) := h a (List.mem_cons_self a rest)
    have hrest : mapME f rest = .ok (rest.map g) :=
      ih fun b hb => h b (List.mem_cons_of_mem a hb)
    simp [mapME, ha, hrest]

theorem mapME_length {α β : Type} (f : α → Except String β) :
    ∀ (l : List α) (l' : List β), mapME f l = .ok l' → l'.length = l.length := by
  intro l
  induction l with
  | nil =>
    intro l' h
    simp only [mapME] at h
    cases h
    rfl
  | cons a rest ih =>
    intro l' h
    cases hfa : f a with
    | error e => simp [mapME, hfa] at h
    | ok b =>
      cases hrest : mapME f rest with
      | error e => simp [mapME, hfa, hrest] at h
      | ok bs =>
        simp only [mapME, hfa, hrest, Except.ok.injEq] at h
        subst h
        simp [ih bs hrest]

theorem mapME_mem {α β : Type} (f : α → Except String β) :
    ∀ (l : List α) (l' : List β), mapME f l = .ok l' →
      ∀ b ∈ l', ∃ a ∈ l, f a = .ok b := by
  intro l
  induction l with
  | nil =>
    intro l' h
    simp only [mapME] at h
    cases h
    intro b hb
    exact absurd hb (List.not_mem_nil b)
  | cons a rest ih =>
    intro l' h
    cases hfa : f a with
    | error e => simp [mapME, hfa] at h
    | ok b0 =>
      cases hrest : mapME f rest with
      | error e => simp [mapME, hfa, hrest] at h
      | ok bs =>
        simp only [mapME, hfa, hrest, Except.ok.injEq] at h
        subst h
        intro b hb
        rcases List.mem_cons.mp hb with hb | hb
        · exact ⟨a, List.mem_cons_self a rest, hb ▸ hfa⟩
        · rcases ih bs hrest b hb with ⟨a', ha', hfa'⟩
          exact ⟨a', List.mem_cons_of_mem a ha', hfa'⟩

theorem mapME_error_of_mem {α β : Type} (f : α → Except String β) :
    ∀ (l : List α) (a : α) (e : String), a ∈ l → f a = .error e →
      ∃ e', mapME f l = .error e' ∧ ∃ b ∈ l, f b = .error e' := by
  intro l
  induction l with
  | nil => intro a e ha _; exact absurd ha (List.not_mem_nil a)
  | cons x rest ih =>
    intro a e ha he
    cases hfx : f x with
    | error ex =>
      refine ⟨ex, ?_, x, List.mem_cons_self x rest, hfx⟩
      simp [mapME, hfx]
    | ok b0 =>
      rcases List.mem_cons.mp ha with rfl | ha'
      · rw [hfx] at he; cases he
      · rcases ih a e ha' he with ⟨e', hme, b, hb, hfb⟩
        refine ⟨e', ?_, b, List.mem_cons_of_mem x hb, hfb⟩
        simp [mapME, hfx, hme]

theorem pairs_with_previous_length :
    ∀ (as : List Note) (p : Option Note),
      (pairs_with_previous p as).length = as.length := by
  intro as
  induction as with
  | nil => intro p; rfl
  | cons n rest ih => intro p; simp [pairs_with_previous, ih (some n)]

theorem lessons_chain (c : String) (s : ScaleType) (t : Option (List Note)) :
    ∀ (as : List Note) (p : Option Note),
      List.Chain' (fun a b => b.dependencies = [a.manifest_id])
        ((pairs_with_previous p as).map
          (fun q => lesson_builder_pure c s t q.1 q.2)) := by
  intro as
  induction as with
  | nil => intro p; simp [pairs_with_previous]
  | cons n rest ih =>
    intro p
    simp only [pairs_with_previous, List.map_cons]
    refine List.chain'_cons'.mpr ⟨?_, ih (some n)⟩
    intro y hy
    cases rest with
    | nil => simp [pairs_with_previous] at hy
    | cons m rest' =>
      simp only [pairs_with_previous, List.map_cons, List.head?_cons,
        Option.mem_def, Option.some.injEq] at hy
      subst hy
      rfl

theorem lessons_ids (c : String) (s : ScaleType) (t : Option (List Note)) :
    ∀ (as : List Note) (p : Option Note),
      ((pairs_with_previous p as).map
        (fun q => lesson_builder_pure c s t q.1 q.2)).map LessonBuilder.manifest_id =
      as.map (fun n => c ++ "::" ++ n.toString) := by
  intro as
  induction as with
  | nil => intro p; rfl
  | cons n rest ih =>
    intro p
    simp only [pairs_with_previous, List.map_cons, ih (some n)]
    rfl

theorem string_append_left_cancel {d a b : String} (h : d ++ a = d ++ b) : a = b := by
  have h2 : (d ++ a).data = (d ++ b).data := congrArg String.data h
  rw [String.data_append, String.data_append] at h2
  exact String.ext (List.append_cancel_left h2)

theorem note_toString_injective : Function.Injective Note.toString := by
  intro a b h
  cases a <;> cases b <;> first | rfl | (exact absurd h (by decide))

theorem lesson_id_fun_injective (c : String) :
    Function.Injective (fun n : Note => c ++ "::" ++ n.toString) := by
  intro a b h
  exact note_toString_injective (string_append_left_cancel h)

theorem course_builder_ok_inv (c : FretboardExplorationCourse) (cb : CourseBuilder)
    (h : c.course_builder = .ok cb) :
    ∃ as, mapME (apply_alias c.note_alias) circle_of_fifths = .ok as ∧
      as.length = 12 ∧
      cb.lessons = (pairs_with_previous none as).map
        (fun q => lesson_builder_pure c.course_id c.scale c.tuning q.1 q.2) := by
  unfold FretboardExplorationCourse.course_builder key_sequence at h
  cases hm : mapME (apply_alias c.note_alias) circle_of_fifths with
  | error e => simp [hm] at h
  | ok as =>
    have hlessons : mapME
        (fun q : Note × Option Note =>
          lesson_builder_generator c.course_id c.scale c.tuning q.1 q.2)
        (pairs_with_previous none as) =
        .ok ((pairs_with_previous none as).map
          (fun q => lesson_builder_pure c.course_id c.scale c.tuning q.1 q.2)) :=
      mapME_ok_of_forall_ok _ _ _
        (fun q _ => lesson_builder_generator_eq c.course_id c.scale c.tuning q.1 q.2)
    simp only [hm, hlessons, Except.ok.injEq] at h
    refine ⟨as, rfl, ?_, ?_⟩
    · have := mapME_length _ _ _ hm
      simpa [circle_of_fifths] using this
    · subst h
      rfl

theorem aliased_walk_covers_all_notes
    (note_alias : Option (Note → Except String Note))
    (halias : note_alias = none ∨ note_alias = some Note.relative_minor)
    (as : List Note)
    (hm : mapME (apply_alias note_alias) circle_of_fifths = .ok as) :
    ∀ n : Note, as.count n = 1 := by
  rcases halias with ha | ha
  · subst ha
    have hconc : mapME (apply_alias none) circle_of_fifths =
        .ok circle_of_fifths := rfl
    rw [hconc] at hm
    injection hm with hm'
    subst hm'
    intro n
    cases n <;> decide
  · subst ha
    have hconc : mapME (apply_alias (some Note.relative_minor)) circle_of_fifths =
        .ok [Note.A, Note.E, Note.B, Note.FSharp, Note.CSharp, Note.GSharp,
             Note.DSharp, Note.ASharp, Note.F, Note.C, Note.G, Note.D] := rfl
    rw [hconc] at hm
    injection hm with hm'
    subst hm'
    intro n
    cases n <;> decide

/-! ### Claim theorems -/

/-- C1: For every course id, scale type, root note and tuning, every exercise
produced by `generate_exercise_builders` has a back/answer asset whose note
list equals the comma-joined display rendering of `scale.notes(root).notes`,
in formula order; the list is computed once from the lesson's root note and is
the same fixed string across all strings of that lesson. -/
theorem exercise_back_asset_matches_scale_notes (course_id : String)
    (scale : ScaleType) (root : Note) (tuning : Option (List Note))
    (res : ScaleResult) (bs : List ExerciseBuilder)
    (hnotes : scale.notes root = .ok res)
    (hgen : generate_exercise_builders course_id scale root tuning = .ok bs) :
    ∀ b ∈ bs, ∃ a ∈ b.asset_builders, a.file_name = "back.md" ∧
      a.contents = "The notes of the " ++ root.toString ++ " " ++ scale.toString ++
        " scale are: " ++
        String.intercalate ", " (res.notes.map Note.toString) ++ ".\n" := by
  injection hnotes with hres
  subst hres
  rw [generate_exercise_builders_eq] at hgen
  cases hgen
  intro b hb
  simp only [exercise_builders_pure, List.mem_map] at hb
  obtain ⟨g, _, rfl⟩ := hb
  exact ⟨_, List.mem_cons_of_mem _ (List.mem_cons_self _ _), rfl, rfl⟩

/-- C1 witness: concrete instance at the C Major scale with the default
tuning. -/
theorem exercise_back_asset_matches_scale_notes_witness :
    ScaleType.Major.notes Note.C =
      .ok ⟨Note.C, [Note.C, Note.D, Note.E, Note.F, Note.G, Note.A, Note.B]⟩ ∧
    ∀ b ∈ builders_of (generate_exercise_builders "id" ScaleType.Major Note.C none),
      ∃ a ∈ b.asset_builders, a.file_name = "back.md" ∧
        a.contents = "The notes of the C Major scale are: " ++
          String.intercalate ", "
            ([Note.C, Note.D, Note.E, Note.F, Note.G, Note.A, Note.B].map Note.toString) ++
          ".\n" :=
  ⟨rfl, exercise_back_asset_matches_scale_notes "id" ScaleType.Major Note.C none
    ⟨Note.C, [Note.C, Note.D, Note.E, Note.F, Note.G, Note.A, Note.B]⟩
    (builders_of (generate_exercise_builders "id" ScaleType.Major Note.C none))
    rfl rfl⟩

/-- C3: For every lesson built by the `lesson_builder_generator`, the
dependency set is empty when `previous_note` is `None`, and otherwise is
exactly the singleton set containing the id `"{course_id}::{previous_note}"`. -/
theorem lesson_dependencies_empty_or_previous_singleton (course_id : String)
    (scale : ScaleType) (tuning : Option (List Note)) (note : Note)
    (previous_note : Option Note) (lb : LessonBuilder)
    (h : lesson_builder_generator course_id scale tuning note previous_note = .ok lb) :
    (previous_note = none → lb.dependencies = []) ∧
    ∀ p, previous_note = some p →
      lb.dependencies = [course_id ++ "::" ++ p.toString] := by
  rw [lesson_builder_generator_eq] at h
  cases h
  constructor
  · intro hp
    subst hp
    rfl
  · intro p hp
    subst hp
    rfl

/-- C3 witness: concrete instances with and without a previous note. -/
theorem lesson_dependencies_empty_or_previous_singleton_witness :
    lesson_builder_generator "id" ScaleType.Major none Note.D (some Note.G) =
      .ok (lesson_of (lesson_builder_generator "id" ScaleType.Major none Note.D
        (some Note.G))) ∧
    (lesson_of (lesson_builder_generator "id" ScaleType.Major none Note.D
      (some Note.G))).dependencies = ["id::G"] :=
  ⟨rfl, (lesson_dependencies_empty_or_previous_singleton "id" ScaleType.Major none
    Note.D (some Note.G)
    (lesson_of (lesson_builder_generator "id" ScaleType.Major none Note.D
      (some Note.G))) rfl).2 Note.G rfl⟩

/-- C5: When the tuning field is `None`, exercise generation uses the fixed
5-element standard tuning [E, A, D, G, B], in that order, with no repeated
pitch class; a caller-supplied tuning is used exactly as given. -/
theorem default_tuning_standard_and_supplied_tuning_exact (c : String)
    (s : ScaleType) (n : Note) :
    standard_tuning = [Note.E, Note.A, Note.D, Note.G, Note.B] ∧
    standard_tuning.Nodup ∧
    generate_exercise_builders c s n none =
      generate_exercise_builders c s n (some standard_tuning) ∧
    ∀ t bs, generate_exercise_builders c s n (some t) = .ok bs →
      bs = t.map (exercise_builder_for c s n (scale_answer_of s n)) := by
  refine ⟨rfl, by decide, rfl, ?_⟩
  intro t bs h
  rw [generate_exercise_builders_eq] at h
  cases h
  rfl

/-- C5 witness: concrete instance for the C Major scale with a supplied
two-string tuning. -/
theorem default_tuning_standard_and_supplied_tuning_exact_witness :
    generate_exercise_builders "id" ScaleType.Major Note.C (some [Note.E, Note.B]) =
      .ok (builders_of (generate_exercise_builders "id" ScaleType.Major Note.C
        (some [Note.E, Note.B]))) ∧
    builders_of (generate_exercise_builders "id" ScaleType.Major Note.C
        (some [Note.E, Note.B])) =
      [Note.E, Note.B].map (exercise_builder_for "id" ScaleType.Major Note.C
        (scale_answer_of ScaleType.Major Note.C)) :=
  ⟨rfl, (default_tuning_standard_and_supplied_tuning_exact "id" ScaleType.Major
    Note.C).2.2.2 [Note.E, Note.B]
    (builders_of (generate_exercise_builders "id" ScaleType.Major Note.C
      (some [Note.E, Note.B]))) rfl⟩

/-- C6: Every exercise id is exactly
`"{course_id}::{root_note}::{string_note}_string"` and every lesson id is
exactly `"{course_id}::{note}"`; both are computed by pure functions of the
(course id, note, string note) inputs, so regeneration with equal inputs
yields identical ids. -/
theorem exercise_and_lesson_id_formats (course_id : String) (scale : ScaleType)
    (note : Note) (tuning : Option (List Note)) :
    (∀ bs, generate_exercise_builders course_id scale note tuning = .ok bs →
      bs.map ExerciseBuilder.manifest_id = (tuning_or_default tuning).map
        (fun g => course_id ++ "::" ++ note.toString ++ "::" ++
          g.toString ++ "_string")) ∧
    (∀ p lb, lesson_builder_generator course_id scale tuning note p = .ok lb →
      lb.manifest_id = course_id ++ "::" ++ note.toString) := by
  constructor
  · intro bs h
    rw [generate_exercise_builders_eq] at h
    cases h
    rw [exercise_builders_pure, List.map_map]
    rfl
  · intro p lb h
    rw [lesson_builder_generator_eq] at h
    cases h
    rfl

/-- C6 witness: concrete instance at the G Minor lesson of a course. -/
theorem exercise_and_lesson_id_formats_witness :
    generate_exercise_builders "id" ScaleType.Minor Note.G none =
      .ok (builders_of (generate_exercise_builders "id" ScaleType.Minor Note.G none)) ∧
    (builders_of (generate_exercise_builders "id" ScaleType.Minor Note.G none)).map
        ExerciseBuilder.manifest_id =
      standard_tuning.map (fun g => "id" ++ "::" ++ Note.G.toString ++ "::" ++
        g.toString ++ "_string") :=
  ⟨rfl, (exercise_and_lesson_id_formats "id" ScaleType.Minor Note.G none).1
    (builders_of (generate_exercise_builders "id" ScaleType.Minor Note.G none)) rfl⟩

/-- C7: `generate_exercise_builders` has no failure mode of its own: its
success is exactly the success of `scale.notes(root)`, and since scale
computation is total it never fails for any course id, scale type, root note
and tuning. -/
theorem generate_exercise_builders_never_fails (course_id : String)
    (scale : ScaleType) (note : Note) (tuning : Option (List Note)) :
    (∃ res, scale.notes note = .ok res) ∧
    (∃ bs, generate_exercise_builders course_id scale note tuning = .ok bs) ∧
    (generate_exercise_builders course_id scale note tuning).isOk =
      (scale.notes note).isOk := by
  refine ⟨⟨_, rfl⟩, ⟨_, generate_exercise_builders_eq course_id scale note tuning⟩, ?_⟩
  rw [generate_exercise_builders_eq]
  rfl

/-- C10: A caller-supplied tuning is not deduplicated: `generate_exercise_builders`
emits exactly one exercise per entry including repeated notes, with ids in
per-entry correspondence, so a tuning containing the same note twice yields
two exercises with identical ids within the same lesson. -/
theorem supplied_tuning_not_deduplicated (course_id : String) (scale : ScaleType)
    (note : Note) (t : List Note) (bs : List ExerciseBuilder)
    (h : generate_exercise_builders course_id scale note (some t) = .ok bs) :
    bs.length = t.length ∧
    bs.map ExerciseBuilder.manifest_id = t.map (fun g =>
      course_id ++ "::" ++ note.toString ++ "::" ++ g.toString ++ "_string") ∧
    ∀ i j : Nat, t[i]? = t[j]? →
      (bs.map ExerciseBuilder.manifest_id)[i]? =
        (bs.map ExerciseBuilder.manifest_id)[j]? := by
  rw [generate_exercise_builders_eq] at h
  cases h
  have hmap : (exercise_builders_pure course_id scale note (some t)).map
      ExerciseBuilder.manifest_id = t.map (fun g =>
        course_id ++ "::" ++ note.toString ++ "::" ++ g.toString ++ "_string") := by
    rw [exercise_builders_pure, List.map_map]
    rfl
  refine ⟨by simp [exercise_builders_pure, tuning_or_default], hmap, ?_⟩
  intro i j hij
  rw [hmap]
  simp [List.getElem?_map, hij]

/-- C10 witness: a tuning naming the E string twice yields two exercises with
the identical id. -/
theorem supplied_tuning_not_deduplicated_witness :
    generate_exercise_builders "id" ScaleType.Major Note.C (some [Note.E, Note.E]) =
      .ok (builders_of (generate_exercise_builders "id" ScaleType.Major Note.C
        (some [Note.E, Note.E]))) ∧
    (builders_of (generate_exercise_builders "id" ScaleType.Major Note.C
        (some [Note.E, Note.E]))).length = 2 ∧
    (builders_of (generate_exercise_builders "id" ScaleType.Major Note.C
        (some [Note.E, Note.E]))).map ExerciseBuilder.manifest_id =
      [Note.E, Note.E].map (fun g => "id" ++ "::" ++ Note.C.toString ++ "::" ++
        g.toString ++ "_string") :=
  ⟨rfl,
   (supplied_tuning_not_deduplicated "id" ScaleType.Major Note.C [Note.E, Note.E]
     (builders_of (generate_exercise_builders "id" ScaleType.Major Note.C
       (some [Note.E, Note.E]))) rfl).1,
   (supplied_tuning_not_deduplicated "id" ScaleType.Major Note.C [Note.E, Note.E]
     (builders_of (generate_exercise_builders "id" ScaleType.Major Note.C
       (some [Note.E, Note.E]))) rfl).2.1⟩

/-- C2: Every successfully generated course contains exactly 12 lessons, one
per pitch class (for the aliases the repository's generated courses use —
`None` for the major course and `relative_minor` for the minor course — each
pitch class keys exactly one lesson), and each lesson contains exactly one
exercise per tuning entry, in tuning order (so with the default tuning every
lesson has 5 exercises). -/
theorem course_has_twelve_lessons_with_tuning_exercises
    (c : FretboardExplorationCourse) (cb : CourseBuilder)
    (h : c.course_builder = .ok cb) :
    cb.lessons.length = 12 ∧
    (∀ l ∈ cb.lessons,
      l.exercise_builders.length = (tuning_or_default c.tuning).length ∧
      l.exercise_builders.map ExerciseBuilder.directory_name =
        (tuning_or_default c.tuning).map (fun g => g.toString ++ "_string")) ∧
    (c.tuning = none → ∀ l ∈ cb.lessons, l.exercise_builders.length = 5) ∧
    ((c.note_alias = none ∨ c.note_alias = some Note.relative_minor) →
      ∀ n : Note, (cb.lessons.map LessonBuilder.manifest_id).count
        (c.course_id ++ "::" ++ n.toString) = 1) := by
  obtain ⟨as, hm, hlen, hlessons⟩ := course_builder_ok_inv c cb h
  have hex : ∀ l ∈ cb.lessons,
      l.exercise_builders.length = (tuning_or_default c.tuning).length ∧
      l.exercise_builders.map ExerciseBuilder.directory_name =
        (tuning_or_default c.tuning).map (fun g => g.toString ++ "_string") := by
    intro l hl
    rw [hlessons] at hl
    obtain ⟨q, _, rfl⟩ := List.mem_map.mp hl
    constructor
    · simp [lesson_builder_pure, exercise_builders_pure]
    · show ((tuning_or_default c.tuning).map _).map _ = _
      rw [List.map_map]
      rfl
  refine ⟨?_, hex, ?_, ?_⟩
  · rw [hlessons, List.length_map, pairs_with_previous_length, hlen]
  · intro ht l hl
    have := (hex l hl).1
    rw [ht] at this
    simpa using this
  · intro halias n
    rw [hlessons, lessons_ids]
    rw [List.count_map_of_injective as _ (lesson_id_fun_injective c.course_id) n]
    exact aliased_walk_covers_all_notes c.note_alias halias as hm n

/-- C2 witness: the major-scale course of the repository has 12 lessons of 5
exercises each, one lesson per pitch class. -/
theorem course_has_twelve_lessons_with_tuning_exercises_witness :
    major_scale_course.course_builder = .ok (course_of major_scale_course_builder) ∧
    (course_of major_scale_course_builder).lessons.length = 12 ∧
    (major_scale_course.tuning = none →
      ∀ l ∈ (course_of major_scale_course_builder).lessons,
        l.exercise_builders.length = 5) ∧
    (∀ n : Note,
      ((course_of major_scale_course_builder).lessons.map
        LessonBuilder.manifest_id).count
        (major_scale_course.course_id ++ "::" ++ n.toString) = 1) :=
  ⟨rfl,
   (course_has_twelve_lessons_with_tuning_exercises major_scale_course
     (course_of major_scale_course_builder) rfl).1,
   (course_has_twelve_lessons_with_tuning_exercises major_scale_course
     (course_of major_scale_course_builder) rfl).2.2.1,
   (course_has_twelve_lessons_with_tuning_exercises major_scale_course
     (course_of major_scale_course_builder) rfl).2.2.2 (Or.inl rfl)⟩

/-- C4: In every generated course (the repository instantiates the generator
with `note_alias` equal to `None` for the major course and `relative_minor`
for the minor course), the dependency graph over the 12 lessons is a single
linear chain: the first lesson has an empty dependency set, every other lesson
depends on exactly the previous lesson's id, and the 12 lesson ids are
pairwise distinct, so following dependency pointers from the last lesson
visits all 12 lessons exactly once with no cycle and no branching. -/
theorem lesson_dependency_graph_is_linear_chain (c : FretboardExplorationCourse)
    (cb : CourseBuilder)
    (halias : c.note_alias = none ∨ c.note_alias = some Note.relative_minor)
    (h : c.course_builder = .ok cb) :
    cb.lessons.length = 12 ∧ linear_dependency_chain cb.lessons := by
  obtain ⟨as, hm, hlen, hlessons⟩ := course_builder_ok_inv c cb h
  refine ⟨?_, ?_, ?_, ?_⟩
  · rw [hlessons, List.length_map, pairs_with_previous_length, hlen]
  · intro l0 hl0
    rw [hlessons] at hl0
    cases as with
    | nil => simp [pairs_with_previous] at hl0
    | cons a rest =>
      simp only [pairs_with_previous, List.map_cons, List.head?_cons,
        Option.some.injEq] at hl0
      rw [← hl0]
      rfl
  · rw [hlessons]
    exact lessons_chain c.course_id c.scale c.tuning as none
  · rw [hlessons, lessons_ids]
    apply List.Nodup.map (lesson_id_fun_injective c.course_id)
    rcases halias with ha | ha
    · rw [ha] at hm
      have hconc : mapME (apply_alias none) circle_of_fifths =
          .ok circle_of_fifths := rfl
      rw [hconc] at hm
      injection hm with hm'
      rw [← hm']
      decide
    · rw [ha] at hm
      have hconc : mapME (apply_alias (some Note.relative_minor)) circle_of_fifths =
          .ok [Note.A, Note.E, Note.B, Note.FSharp, Note.CSharp, Note.GSharp,
               Note.DSharp, Note.ASharp, Note.F, Note.C, Note.G, Note.D] := rfl
      rw [hconc] at hm
      injection hm with hm'
      rw [← hm']
      decide

/-- C4 witness: the minor-scale course of the repository forms a linear
dependency chain over its 12 lessons. -/
theorem lesson_dependency_graph_is_linear_chain_witness :
    minor_scale_course.course_builder = .ok (course_of minor_scale_course_builder) ∧
    (course_of minor_scale_course_builder).lessons.length = 12 ∧
    linear_dependency_chain (course_of minor_scale_course_builder).lessons :=
  ⟨rfl, lesson_dependency_graph_is_linear_chain minor_scale_course
    (course_of minor_scale_course_builder) (Or.inr rfl) rfl⟩

/-- C8: If the optional `note_alias` function returns an error for some note
in the sequence, course generation fails as a whole with an alias error and no
partial course (no subset of lessons) is emitted. -/
theorem alias_failure_aborts_course_build (c : FretboardExplorationCourse)
    (f : Note → Except String Note) (hf : c.note_alias = some f)
    (n : Note) (e : String) (hn : n ∈ circle_of_fifths) (he : f n = .error e) :
    ∃ e', c.course_builder = .error e' ∧ ∃ m ∈ circle_of_fifths, f m = .error e' := by
  have he' : apply_alias c.note_alias n = .error e := by rw [hf]; exact he
  obtain ⟨e', hme, m, hm, hfm⟩ :=
    mapME_error_of_mem (apply_alias c.note_alias) circle_of_fifths n e hn he'
  refine ⟨e', ?_, m, hm, ?_⟩
  · unfold FretboardExplorationCourse.course_builder key_sequence
    simp [hme]
  · rw [hf] at hfm
    exact hfm

/-- C8 witness: a course whose alias rejects every note fails to build. -/
theorem alias_failure_aborts_course_build_witness :
    ∃ e', failing_alias_course.course_builder = .error e' ∧
      ∃ m ∈ circle_of_fifths,
        (fun _ : Note => (Except.error "alias failure" : Except String Note)) m =
          .error e' :=
  alias_failure_aborts_course_build failing_alias_course
    (fun _ => .error "alias failure") rfl Note.C "alias failure" (by decide) rfl

/-- C9: Course generation is deterministic: two runs of `course_builder` on
equal inputs (course id, scale type, tuning, alias, dependencies, directory
name) produce identical course trees — the builder is a pure function of the
`FretboardExplorationCourse` value. -/
theorem course_builder_deterministic (c1 c2 : FretboardExplorationCourse)
    (h : c1 = c2) : c1.course_builder = c2.course_builder := by
  rw [h]

/-- C9 witness: two runs on the repository's major-scale configuration agree. -/
theorem course_builder_deterministic_witness :
    major_scale_course.course_builder = major_scale_course.course_builder :=
  course_builder_deterministic major_scale_course major_scale_course rfl
